import Mathlib

/-!
Verification development for the diagnostics subsystem of `src/src/logging.h`
(structured diagnostics for a multi-stage SQF toolchain).

The header is shallowly embedded: the `loglevel` enumeration, the
`LogLocationInfo` / `LogMessageBase` data model, the `Logger` gate-and-sink
state machine, the `CanLog` emit capability and the full diagnostic catalog
(every concrete kind's name, owning domain, fixed severity and fixed numeric
code, in source order) are translated into executable Lean definitions.
Member functions whose bodies live outside the header (the concrete sink
`StdOutLogger::log`, `CanLog::log`, the `formatMessage` renderers and
`LogLocationInfo::format`) are modelled from the specification, as marked in
their doc comments.
-/

set_option autoImplicit false
set_option maxHeartbeats 2000000
set_option maxRecDepth 100000

namespace SqfLog

/-- Severity enumeration `loglevel` (logging.h lines 13-20), in declaration
order `fatal, error, warning, info, verbose, trace`. -/
inductive loglevel where
  | fatal
  | error
  | warning
  | info
  | verbose
  | trace
deriving DecidableEq, Repr

/-- Underlying integer value of each `loglevel` enumerator (C++ scoped enum
default numbering: first enumerator 0, each following one more). -/
def loglevel.toIdx : loglevel → Int
  | .fatal => 0
  | .error => 1
  | .warning => 2
  | .info => 3
  | .verbose => 4
  | .trace => 5

/-- `LogLocationInfo` (logging.h lines 31-44): `path`, `line`, `col`. -/
structure LogLocationInfo where
  path : String
  line : Nat
  col : Nat
deriving DecidableEq, Repr

/-- The defaulted constructor `LogLocationInfo() = default` (logging.h
line 33).  The members have no default member initializers, so default
construction default-initializes `path` to the empty string while `line`
and `col` (plain `size_t`) are left uninitialized.  The indeterminate
memory contents are made explicit as the parameters `junkLine`/`junkCol`:
every pair of junk values yields a possible result of the constructor. -/
def LogLocationInfo.mkDefault (junkLine junkCol : Nat) : LogLocationInfo :=
  { path := "", line := junkLine, col := junkCol }

/-- Modelled from the spec: `LogLocationInfo::format` is declared at
logging.h line 43 but implemented outside the header.  Section 4.1 fixes the
display contract: path first, then line, then column, each present in the
rendered text. -/
def LogLocationInfo.format (l : LogLocationInfo) : String :=
  "[" ++ l.path ++ "|L" ++ toString l.line ++ "|C" ++ toString l.col ++ "]"

/-- `LogMessageBase` (logging.h lines 47-65): stores the severity and the
numeric error code passed to its constructor. -/
structure LogMessageBase where
  level : loglevel
  errorCode : Nat
deriving DecidableEq, Repr

/-- `LogMessageBase::getLevel` (logging.h lines 53-55): returns the stored
level.  No class in the header overrides it. -/
def LogMessageBase.getLevel (m : LogMessageBase) : loglevel := m.level

/-- `LogMessageBase::getErrorCode` (logging.h lines 56-58): returns the
stored code.  No class in the header overrides it. -/
def LogMessageBase.getErrorCode (m : LogMessageBase) : Nat := m.errorCode

/-- `Logger` state (logging.h lines 66-90) together with the observable
output of its sink.  `enabledWarningLevels` models the `std::vector<bool>`
of six gate booleans indexed by `static_cast<size_t>(level)`; since exactly
the six enumerators index it, it is embedded as a total function on
`loglevel`.  `output` is the trace of `(level, message)` pairs the sink
primitive has made observable (the console lines of the one concrete sink,
`StdOutLogger`). -/
structure Logger where
  enabledWarningLevels : loglevel → Bool
  output : List (loglevel × String)

/-- The `Logger()` constructor (logging.h line 70): all six gates start
`true`; no sink write has happened yet. -/
def Logger.init : Logger :=
  { enabledWarningLevels := fun _ => true, output := [] }

/-- `Logger::isEnabled` (logging.h lines 71-73): read the gate for `level`. -/
def Logger.isEnabled (lg : Logger) (level : loglevel) : Bool :=
  lg.enabledWarningLevels level

/-- `Logger::setEnabled` (logging.h lines 74-76): write the gate for
`level`, leaving every other gate untouched. -/
def Logger.setEnabled (lg : Logger) (level : loglevel) (b : Bool) : Logger :=
  { lg with enabledWarningLevels := fun l => if l = level then b else lg.enabledWarningLevels l }

/-- Modelled from the spec: `Logger::log` is pure virtual (logging.h
line 77) and the only concrete sink `StdOutLogger::log` (line 95) is
implemented outside the header.  Section 4.4: the sink primitive makes
`(level, text)` observable whenever invoked, regardless of gate state;
filtering is enforced by the emit path, not the sink. -/
def Logger.log (lg : Logger) (level : loglevel) (message : String) : Logger :=
  { lg with output := lg.output ++ [(level, message)] }

/-- `Logger::loglevelstring` (logging.h lines 78-89), embedded over the
underlying integer of the scoped enum so that the `default` branch (reached
by any value that is none of the six enumerators) is represented. -/
def Logger.loglevelstring (n : Int) : String :=
  if n = loglevel.fatal.toIdx then "[FAT]"
  else if n = loglevel.error.toIdx then "[ERR]"
  else if n = loglevel.warning.toIdx then "[WRN]"
  else if n = loglevel.info.toIdx then "[INF]"
  else if n = loglevel.verbose.toIdx then "[VBS]"
  else if n = loglevel.trace.toIdx then "[TRC]"
  else "[???]"

/-- An emit-ready message as `CanLog::log` sees it: its fixed severity, its
fixed code, and the text its `formatMessage` override would render.  The
second component of `CanLog.log`'s result counts how often `formatMessage`
was invoked (the spec's render-call counter). -/
structure EmitMessage where
  level : loglevel
  errorCode : Nat
  rendered : String
deriving DecidableEq, Repr

/-- Modelled from the spec: `CanLog::log(LogMessageBase&)` is declared at
logging.h lines 103-104 but implemented outside the header.  Section 4.5:
read the message's fixed severity, consult the bound Logger's gate for that
severity; if open, call `render()` (exactly once) and forward
`(severity, text)` to the sink; if closed, do nothing and in particular do
not invoke `render()`.  Returns the new logger state and the number of
render invocations. -/
def CanLog.log (lg : Logger) (m : EmitMessage) : Logger × Nat :=
  if lg.isEnabled m.level then (Logger.log lg m.level m.rendered, 1) else (lg, 0)

/-- The six diagnostic domains, one per namespace under `logmessage`
(logging.h lines 110-1616). -/
inductive Domain where
  | preprocessor
  | assembly
  | sqf
  | config
  | linting
  | runtime
deriving DecidableEq, Repr

/-- The thousands band owning a domain's codes: preprocessor 10xxx,
assembly 20xxx, script parser 30xxx, config parser 40xxx, linting 50xxx,
runtime 60xxx. -/
def Domain.codeBand : Domain → Nat
  | .preprocessor => 10
  | .assembly => 20
  | .sqf => 30
  | .config => 40
  | .linting => 50
  | .runtime => 60

/-- One concrete diagnostic kind of the catalog: its class name, owning
namespace, and the `static const` `level` and `errorCode` constants from
its class definition. -/
structure CatalogEntry where
  name : String
  domain : Domain
  level : loglevel
  code : Nat
deriving DecidableEq, Repr

/-- Catalog kinds of namespace `logmessage::preprocessor` (logging.h lines 112-236), in source order. -/
def catalogPreprocessor : List CatalogEntry := [
  ⟨"ArgCountMissmatch", .preprocessor, .error, 10001⟩,
  ⟨"UnexpectedDataAfterInclude", .preprocessor, .warning, 10002⟩,
  ⟨"RecursiveInclude", .preprocessor, .error, 10003⟩,
  ⟨"IncludeFailed", .preprocessor, .error, 10004⟩,
  ⟨"MacroDefinedTwice", .preprocessor, .warning, 10005⟩,
  ⟨"MacroNotFound", .preprocessor, .warning, 10006⟩,
  ⟨"UnexpectedIfdef", .preprocessor, .error, 10007⟩,
  ⟨"UnexpectedIfndef", .preprocessor, .error, 10008⟩,
  ⟨"UnexpectedElse", .preprocessor, .error, 10009⟩,
  ⟨"UnexpectedEndif", .preprocessor, .error, 10010⟩,
  ⟨"MissingEndif", .preprocessor, .error, 10011⟩,
  ⟨"UnknownInstruction", .preprocessor, .error, 10012⟩,
  ⟨"EmptyArgument", .preprocessor, .warning, 10013⟩]

/-- Catalog kinds of namespace `logmessage::assembly` (logging.h lines 238-407), in source order. -/
def catalogAssembly : List CatalogEntry := [
  ⟨"ExpectedSemicolon", .assembly, .error, 20001⟩,
  ⟨"NoViableAlternativeInstructions", .assembly, .error, 20002⟩,
  ⟨"NoViableAlternativeArg", .assembly, .error, 20003⟩,
  ⟨"ExpectedEndStatement", .assembly, .error, 20004⟩,
  ⟨"ExpectedCallNular", .assembly, .error, 20005⟩,
  ⟨"ExpectedNularOperator", .assembly, .error, 20006⟩,
  ⟨"UnknownNularOperator", .assembly, .error, 20007⟩,
  ⟨"ExpectedCallUnary", .assembly, .error, 20008⟩,
  ⟨"ExpectedUnaryOperator", .assembly, .error, 20009⟩,
  ⟨"UnknownUnaryOperator", .assembly, .error, 20010⟩,
  ⟨"ExpectedCallBinary", .assembly, .error, 20011⟩,
  ⟨"ExpectedBinaryOperator", .assembly, .error, 20012⟩,
  ⟨"UnknownBinaryOperator", .assembly, .error, 20013⟩,
  ⟨"ExpectedAssignTo", .assembly, .error, 20014⟩,
  ⟨"ExpectedVariableName", .assembly, .error, 20015⟩,
  ⟨"ExpectedAssignToLocal", .assembly, .error, 20016⟩,
  ⟨"ExpectedGetVariable", .assembly, .error, 20017⟩,
  ⟨"ExpectedMakeArray", .assembly, .error, 20018⟩,
  ⟨"ExpectedInteger", .assembly, .error, 20019⟩,
  ⟨"ExpectedPush", .assembly, .error, 20020⟩,
  ⟨"ExpectedTypeName", .assembly, .error, 20021⟩,
  ⟨"NumberOutOfRange", .assembly, .warning, 20022⟩]

/-- Catalog kinds of namespace `logmessage::sqf` (logging.h lines 409-512), in source order. -/
def catalogSqf : List CatalogEntry := [
  ⟨"ExpectedStatementTerminator", .sqf, .error, 30001⟩,
  ⟨"NoViableAlternativeStatement", .sqf, .error, 30002⟩,
  ⟨"MissingUnderscoreOnPrivateVariable", .sqf, .error, 30003⟩,
  ⟨"ExpectedBinaryExpression", .sqf, .error, 30004⟩,
  ⟨"MissingRightArgument", .sqf, .error, 30005⟩,
  ⟨"MissingRoundClosingBracket", .sqf, .error, 30006⟩,
  ⟨"MissingCurlyClosingBracket", .sqf, .error, 30007⟩,
  ⟨"MissingSquareClosingBracket", .sqf, .error, 30008⟩,
  ⟨"NoViableAlternativePrimaryExpression", .sqf, .error, 30009⟩,
  ⟨"EmptyNumber", .sqf, .error, 30010⟩,
  ⟨"ExpectedSQF", .sqf, .error, 30011⟩,
  ⟨"EndOfFile", .sqf, .error, 30012⟩]

/-- Catalog kinds of namespace `logmessage::config` (logging.h lines 514-617), in source order. -/
def catalogConfig : List CatalogEntry := [
  ⟨"ExpectedStatementTerminator", .config, .error, 40001⟩,
  ⟨"NoViableAlternativeNode", .config, .error, 40002⟩,
  ⟨"ExpectedIdentifier", .config, .error, 40003⟩,
  ⟨"MissingRoundClosingBracket", .config, .error, 40004⟩,
  ⟨"MissingCurlyOpeningBracket", .config, .error, 40005⟩,
  ⟨"MissingCurlyClosingBracket", .config, .error, 40006⟩,
  ⟨"MissingSquareClosingBracket", .config, .error, 40007⟩,
  ⟨"MissingEqualSign", .config, .error, 40008⟩,
  ⟨"ExpectedArray", .config, .error, 40009⟩,
  ⟨"ExpectedValue", .config, .error, 40010⟩,
  ⟨"NoViableAlternativeValue", .config, .error, 40011⟩,
  ⟨"EndOfFileNotReached", .config, .error, 40012⟩]

/-- Catalog kinds of namespace `logmessage::linting` (logging.h lines 619-637), in source order. -/
def catalogLinting : List CatalogEntry := [
  ⟨"UnassignedVariable", .linting, .warning, 50001⟩]

/-- Catalog kinds of namespace `logmessage::runtime`, first third (codes 60001-60029), in source order. -/
def catalogRuntime1 : List CatalogEntry := [
  ⟨"Stacktrace", .runtime, .fatal, 60001⟩,
  ⟨"MaximumInstructionCountReached", .runtime, .fatal, 60002⟩,
  ⟨"ExpectedArraySizeMissmatch", .runtime, .error, 60003⟩,
  ⟨"ExpectedArraySizeMissmatchWeak", .runtime, .warning, 60004⟩,
  ⟨"ExpectedMinimumArraySizeMissmatch", .runtime, .error, 60005⟩,
  ⟨"ExpectedMinimumArraySizeMissmatchWeak", .runtime, .warning, 60006⟩,
  ⟨"ExpectedArrayTypeMissmatch", .runtime, .error, 60007⟩,
  ⟨"ExpectedArrayTypeMissmatchWeak", .runtime, .warning, 60008⟩,
  ⟨"IndexOutOfRange", .runtime, .error, 60009⟩,
  ⟨"IndexOutOfRangeWeak", .runtime, .warning, 60010⟩,
  ⟨"NegativeIndex", .runtime, .error, 60011⟩,
  ⟨"NegativeIndexWeak", .runtime, .warning, 60012⟩,
  ⟨"IndexEqualsRange", .runtime, .warning, 60013⟩,
  ⟨"ReturningNil", .runtime, .verbose, 60014⟩,
  ⟨"ReturningEmptyArray", .runtime, .verbose, 60015⟩,
  ⟨"NegativeSize", .runtime, .error, 60016⟩,
  ⟨"NegativeSizeWeak", .runtime, .warning, 60017⟩,
  ⟨"ArrayRecursion", .runtime, .error, 60018⟩,
  ⟨"InfoMessage", .runtime, .info, 60019⟩,
  ⟨"SuspensionDisabled", .runtime, .error, 60020⟩,
  ⟨"SuspensionInUnscheduledEnvironment", .runtime, .error, 60021⟩,
  ⟨"ReturningConfigNull", .runtime, .verbose, 60022⟩,
  ⟨"AssertFailed", .runtime, .error, 60023⟩,
  ⟨"StartIndexExceedsToIndex", .runtime, .error, 60024⟩,
  ⟨"StartIndexExceedsToIndexWeak", .runtime, .warning, 60025⟩,
  ⟨"MagicVariableTypeMissmatch", .runtime, .error, 60026⟩,
  ⟨"ScriptHandleAlreadyTerminated", .runtime, .warning, 60027⟩,
  ⟨"ScriptHandleAlreadyFinished", .runtime, .warning, 60028⟩,
  ⟨"ExtensionLoaded", .runtime, .verbose, 60029⟩]

/-- Catalog kinds of namespace `logmessage::runtime`, second third (codes 60030-60057), in source order. -/
def catalogRuntime2 : List CatalogEntry := [
  ⟨"ExtensionNotTerminatingVersionString", .runtime, .warning, 60030⟩,
  ⟨"ExtensionNotTerminatingCallExtensionBufferString", .runtime, .warning, 60031⟩,
  ⟨"ExtensionNotTerminatingCallExtensionArgBufferString", .runtime, .warning, 60032⟩,
  ⟨"LibraryNameContainsPath", .runtime, .warning, 60033⟩,
  ⟨"ReturningEmptyString", .runtime, .verbose, 60034⟩,
  ⟨"ExtensionRuntimeError", .runtime, .warning, 60035⟩,
  ⟨"FileNotFound", .runtime, .warning, 60036⟩,
  ⟨"ScopeNameAlreadySet", .runtime, .error, 60037⟩,
  ⟨"ScriptNameAlreadySet", .runtime, .warning, 60038⟩,
  ⟨"ReturningEmptyScriptHandle", .runtime, .verbose, 60039⟩,
  ⟨"ReturningErrorCode", .runtime, .verbose, 60040⟩,
  ⟨"ExpectedSubArrayTypeMissmatch", .runtime, .error, 60041⟩,
  ⟨"ExpectedSubArrayTypeMissmatchWeak", .runtime, .warning, 60042⟩,
  ⟨"ErrorMessage", .runtime, .error, 60043⟩,
  ⟨"FileSystemDisabled", .runtime, .warning, 60044⟩,
  ⟨"NetworkingDisabled", .runtime, .warning, 60045⟩,
  ⟨"AlreadyConnected", .runtime, .error, 60046⟩,
  ⟨"NetworkingFormatMissmatch", .runtime, .error, 60047⟩,
  ⟨"FailedToEstablishConnection", .runtime, .warning, 60048⟩,
  ⟨"ExpectedArrayToHaveElements", .runtime, .error, 60049⟩,
  ⟨"ExpectedArrayToHaveElementsWeak", .runtime, .warning, 60050⟩,
  ⟨"ClipboardDisabled", .runtime, .warning, 60051⟩,
  ⟨"FailedToCopyToClipboard", .runtime, .warning, 60052⟩,
  ⟨"FormatInvalidPlaceholder", .runtime, .warning, 60053⟩,
  ⟨"ZeroDivisor", .runtime, .warning, 60054⟩,
  ⟨"MarkerNotExisting", .runtime, .warning, 60055⟩,
  ⟨"ReturningDefaultArray", .runtime, .verbose, 60056⟩,
  ⟨"ReturningScalarZero", .runtime, .verbose, 60057⟩]

/-- Catalog kinds of namespace `logmessage::runtime`, last third (codes 60058-60082; note `MarkerAlreadyExisting` and `InvalidMarkershape` both carry 60067), in source order. -/
def catalogRuntime3 : List CatalogEntry := [
  ⟨"ExpectedNonNullValue", .runtime, .error, 60058⟩,
  ⟨"ExpectedNonNullValueWeak", .runtime, .warning, 60059⟩,
  ⟨"ConfigEntryNotFound", .runtime, .error, 60060⟩,
  ⟨"ConfigEntryNotFoundWeak", .runtime, .warning, 60061⟩,
  ⟨"ExpectedVehicle", .runtime, .error, 60062⟩,
  ⟨"ExpectedVehicleWeak", .runtime, .warning, 60063⟩,
  ⟨"ExpectedUnit", .runtime, .error, 60064⟩,
  ⟨"ExpectedUnitWeak", .runtime, .warning, 60065⟩,
  ⟨"ReturningFalse", .runtime, .verbose, 60066⟩,
  ⟨"MarkerAlreadyExisting", .runtime, .warning, 60067⟩,
  ⟨"InvalidMarkershape", .runtime, .warning, 60067⟩,
  ⟨"TypeMissmatch", .runtime, .error, 60068⟩,
  ⟨"TypeMissmatchWeak", .runtime, .warning, 60069⟩,
  ⟨"VariableNotFound", .runtime, .warning, 60070⟩,
  ⟨"StackCorruptionMissingValues", .runtime, .error, 60071⟩,
  ⟨"NoValueFoundForRightArgument", .runtime, .error, 60072⟩,
  ⟨"NoValueFoundForRightArgumentWeak", .runtime, .warning, 60073⟩,
  ⟨"NoValueFoundForLeftArgument", .runtime, .error, 60074⟩,
  ⟨"NoValueFoundForLeftArgumentWeak", .runtime, .warning, 60075⟩,
  ⟨"UnknownInputTypeCombinationBinary", .runtime, .error, 60076⟩,
  ⟨"FoundNoValue", .runtime, .error, 60077⟩,
  ⟨"CallstackFoundNoValue", .runtime, .error, 60078⟩,
  ⟨"CallstackFoundNoValueWeak", .runtime, .warning, 60079⟩,
  ⟨"GroupNotEmpty", .runtime, .warning, 60080⟩,
  ⟨"ForStepVariableTypeMissmatch", .runtime, .warning, 60081⟩,
  ⟨"ForStepNoWorkShouldBeDone", .runtime, .warning, 60082⟩]

/-- The full diagnostic catalog of logging.h, in source order: every
concrete `LogMessageBase` subclass with its `static const loglevel level`
and `static const size_t errorCode` definition-time constants. -/
def catalog : List CatalogEntry :=
  catalogPreprocessor ++ catalogAssembly ++ catalogSqf ++ catalogConfig ++
  catalogLinting ++ catalogRuntime1 ++ catalogRuntime2 ++ catalogRuntime3

/-- `PreprocBase` (logging.h lines 113-119): forwards the level and code it
is given to the `LogMessageBase` constructor and stores the location. -/
structure PreprocBase where
  base : LogMessageBase
  location : LogLocationInfo
deriving DecidableEq, Repr

/-- The `PreprocBase` constructor (logging.h lines 115-116). -/
def PreprocBase.ctor (level : loglevel) (errorCode : Nat) (location : LogLocationInfo) : PreprocBase :=
  { base := { level := level, errorCode := errorCode }, location := location }

/-- `RuntimeBase` (logging.h lines 641-647): forwards the level and code it
is given to the `LogMessageBase` constructor and stores the location. -/
structure RuntimeBase where
  base : LogMessageBase
  location : LogLocationInfo
deriving DecidableEq, Repr

/-- The `RuntimeBase` constructor (logging.h lines 643-644). -/
def RuntimeBase.ctor (level : loglevel) (errorCode : Nat) (location : LogLocationInfo) : RuntimeBase :=
  { base := { level := level, errorCode := errorCode }, location := location }

/-- The `static const loglevel level` of `ArgCountMissmatch` (logging.h line 122). -/
def ArgCountMissmatch.level : loglevel := .error

/-- The `static const size_t errorCode` of `ArgCountMissmatch` (logging.h line 123). -/
def ArgCountMissmatch.errorCode : Nat := 10001

/-- The `ArgCountMissmatch` constructor (logging.h line 125): no payload of
its own, passes the class's static constants and the location up to
`PreprocBase`. -/
def ArgCountMissmatch.ctor (loc : LogLocationInfo) : PreprocBase :=
  PreprocBase.ctor ArgCountMissmatch.level ArgCountMissmatch.errorCode loc

/-- `ExpectedArraySizeMissmatch` (logging.h lines 670-687): payload
`m_expected_min`, `m_expected_max`, `m_got`; static level `error`, static
code 60003. -/
structure ExpectedArraySizeMissmatch where
  base : RuntimeBase
  m_expected_min : Nat
  m_expected_max : Nat
  m_got : Nat
deriving DecidableEq, Repr

/-- `static const loglevel level` of `ExpectedArraySizeMissmatch` (line 671). -/
def ExpectedArraySizeMissmatch.level : loglevel := .error

/-- `static const size_t errorCode` of `ExpectedArraySizeMissmatch` (line 672). -/
def ExpectedArraySizeMissmatch.errorCode : Nat := 60003

/-- The four-argument `ExpectedArraySizeMissmatch` constructor (logging.h
lines 680-685). -/
def ExpectedArraySizeMissmatch.ctor4 (loc : LogLocationInfo) (expected_min expected_max got : Nat) : ExpectedArraySizeMissmatch :=
  { base := RuntimeBase.ctor ExpectedArraySizeMissmatch.level ExpectedArraySizeMissmatch.errorCode loc,
    m_expected_min := expected_min, m_expected_max := expected_max, m_got := got }

/-- The three-argument `ExpectedArraySizeMissmatch` constructor (logging.h
lines 677-679): delegates with `expected` used for both bounds. -/
def ExpectedArraySizeMissmatch.ctor3 (loc : LogLocationInfo) (expected got : Nat) : ExpectedArraySizeMissmatch :=
  ExpectedArraySizeMissmatch.ctor4 loc expected expected got

/-- `ExpectedArraySizeMissmatchWeak` (logging.h lines 688-705): payload
identical to `ExpectedArraySizeMissmatch`; static level `warning`, static
code 60004. -/
structure ExpectedArraySizeMissmatchWeak where
  base : RuntimeBase
  m_expected_min : Nat
  m_expected_max : Nat
  m_got : Nat
deriving DecidableEq, Repr

/-- `static const loglevel level` of `ExpectedArraySizeMissmatchWeak` (line 689). -/
def ExpectedArraySizeMissmatchWeak.level : loglevel := .warning

/-- `static const size_t errorCode` of `ExpectedArraySizeMissmatchWeak` (line 690). -/
def ExpectedArraySizeMissmatchWeak.errorCode : Nat := 60004

/-- The four-argument `ExpectedArraySizeMissmatchWeak` constructor
(logging.h lines 698-703). -/
def ExpectedArraySizeMissmatchWeak.ctor4 (loc : LogLocationInfo) (expected_min expected_max got : Nat) : ExpectedArraySizeMissmatchWeak :=
  { base := RuntimeBase.ctor ExpectedArraySizeMissmatchWeak.level ExpectedArraySizeMissmatchWeak.errorCode loc,
    m_expected_min := expected_min, m_expected_max := expected_max, m_got := got }

/-- The three-argument `ExpectedArraySizeMissmatchWeak` constructor
(logging.h lines 695-697). -/
def ExpectedArraySizeMissmatchWeak.ctor3 (loc : LogLocationInfo) (expected got : Nat) : ExpectedArraySizeMissmatchWeak :=
  ExpectedArraySizeMissmatchWeak.ctor4 loc expected expected got

/-- Modelled from the spec: the shared wording template of the array-size
Strong/Weak pair.  The `formatMessage` bodies are implemented outside the
header; sections 4.3, 8 and 9 of the spec fix that the twins share one
wording template over the shared payload (both report the expected size and
the got size), differing only in severity and code. -/
def arraySizeWording (location : LogLocationInfo) (expected_min expected_max got : Nat) : String :=
  location.format ++ " expected array of size " ++
  (if expected_min = expected_max then toString expected_min
   else toString expected_min ++ " to " ++ toString expected_max) ++
  ", got " ++ toString got

/-- Modelled from the spec: `ExpectedArraySizeMissmatch::formatMessage`
(declared logging.h line 686), one instantiation of the shared template. -/
def ExpectedArraySizeMissmatch.formatMessage (m : ExpectedArraySizeMissmatch) : String :=
  arraySizeWording m.base.location m.m_expected_min m.m_expected_max m.m_got

/-- Modelled from the spec: `ExpectedArraySizeMissmatchWeak::formatMessage`
(declared logging.h line 704), the other instantiation of the shared
template. -/
def ExpectedArraySizeMissmatchWeak.formatMessage (m : ExpectedArraySizeMissmatchWeak) : String :=
  arraySizeWording m.base.location m.m_expected_min m.m_expected_max m.m_got

/-- `MarkerAlreadyExisting` (logging.h lines 1412-1422): payload
`m_marker_name`; static level `warning`, static code 60067. -/
structure MarkerAlreadyExisting where
  base : RuntimeBase
  m_marker_name : String
deriving DecidableEq, Repr

/-- `static const loglevel level` of `MarkerAlreadyExisting` (line 1413). -/
def MarkerAlreadyExisting.level : loglevel := .warning

/-- `static const size_t errorCode` of `MarkerAlreadyExisting` (line 1414). -/
def MarkerAlreadyExisting.errorCode : Nat := 60067

/-- The `MarkerAlreadyExisting` constructor (logging.h lines 1417-1420). -/
def MarkerAlreadyExisting.ctor (loc : LogLocationInfo) (marker_name : String) : MarkerAlreadyExisting :=
  { base := RuntimeBase.ctor MarkerAlreadyExisting.level MarkerAlreadyExisting.errorCode loc,
    m_marker_name := marker_name }

/-- `InvalidMarkershape` (logging.h lines 1423-1433): payload
`m_shape_name`; static level `warning`, static code 60067 — the same code
as `MarkerAlreadyExisting`. -/
structure InvalidMarkershape where
  base : RuntimeBase
  m_shape_name : String
deriving DecidableEq, Repr

/-- `static const loglevel level` of `InvalidMarkershape` (line 1424). -/
def InvalidMarkershape.level : loglevel := .warning

/-- `static const size_t errorCode` of `InvalidMarkershape` (line 1425). -/
def InvalidMarkershape.errorCode : Nat := 60067

/-- The `InvalidMarkershape` constructor (logging.h lines 1428-1431). -/
def InvalidMarkershape.ctor (loc : LogLocationInfo) (shape_name : String) : InvalidMarkershape :=
  { base := RuntimeBase.ctor InvalidMarkershape.level InvalidMarkershape.errorCode loc,
    m_shape_name := shape_name }

/-- One Strong/Weak sibling pair of the runtime catalog: the two class
names, their static codes, and the declared payload members of each class
body (type and name, in declaration order), transcribed from logging.h. -/
structure TwinPair where
  strongName : String
  weakName : String
  strongCode : Nat
  weakCode : Nat
  strongFields : List String
  weakFields : List String
deriving DecidableEq, Repr

/-- The array-size Strong/Weak pair (logging.h lines 670-705), the pair the
spec itself uses as its example. -/
def twinArraySize : TwinPair :=
  ⟨"ExpectedArraySizeMissmatch", "ExpectedArraySizeMissmatchWeak", 60003, 60004,
   ["size_t m_expected_min", "size_t m_expected_max", "size_t m_got"],
   ["size_t m_expected_min", "size_t m_expected_max", "size_t m_got"]⟩

/-- All Strong/Weak sibling pairs of namespace `logmessage::runtime`, with
each side's payload members transcribed from its class definition. -/
def twins : List TwinPair := [
  twinArraySize,
  ⟨"ExpectedMinimumArraySizeMissmatch", "ExpectedMinimumArraySizeMissmatchWeak", 60005, 60006,
   ["size_t m_expected", "size_t m_got"],
   ["size_t m_expected", "size_t m_got"]⟩,
  ⟨"ExpectedArrayTypeMissmatch", "ExpectedArrayTypeMissmatchWeak", 60007, 60008,
   ["size_t m_position", "std::vector<sqf::type> m_expected", "sqf::type m_got"],
   ["size_t m_position", "std::vector<sqf::type> m_expected", "sqf::type m_got"]⟩,
  ⟨"IndexOutOfRange", "IndexOutOfRangeWeak", 60009, 60010,
   ["size_t m_range", "size_t m_index"],
   ["size_t m_range", "size_t m_index"]⟩,
  ⟨"NegativeIndex", "NegativeIndexWeak", 60011, 60012, [], []⟩,
  ⟨"NegativeSize", "NegativeSizeWeak", 60016, 60017, [], []⟩,
  ⟨"StartIndexExceedsToIndex", "StartIndexExceedsToIndexWeak", 60024, 60025,
   ["size_t m_from", "size_t m_to"],
   ["size_t m_from", "size_t m_to"]⟩,
  ⟨"ExpectedSubArrayTypeMissmatch", "ExpectedSubArrayTypeMissmatchWeak", 60041, 60042,
   ["std::vector<size_t> m_position", "std::vector<sqf::type> m_expected", "sqf::type m_got"],
   ["std::vector<size_t> m_position", "std::vector<sqf::type> m_expected", "sqf::type m_got"]⟩,
  ⟨"ExpectedArrayToHaveElements", "ExpectedArrayToHaveElementsWeak", 60049, 60050, [], []⟩,
  ⟨"ExpectedNonNullValue", "ExpectedNonNullValueWeak", 60058, 60059, [], []⟩,
  ⟨"ConfigEntryNotFound", "ConfigEntryNotFoundWeak", 60060, 60061,
   ["std::vector<std::string> m_config_path", "std::string m_config_name"],
   ["std::vector<std::string> m_config_path", "std::string m_config_name"]⟩,
  ⟨"ExpectedVehicle", "ExpectedVehicleWeak", 60062, 60063, [], []⟩,
  ⟨"ExpectedUnit", "ExpectedUnitWeak", 60064, 60065, [], []⟩,
  ⟨"TypeMissmatch", "TypeMissmatchWeak", 60068, 60069,
   ["sqf::type m_expected", "sqf::type m_got"],
   ["sqf::type m_expected", "sqf::type m_got"]⟩,
  ⟨"NoValueFoundForRightArgument", "NoValueFoundForRightArgumentWeak", 60072, 60073, [], []⟩,
  ⟨"NoValueFoundForLeftArgument", "NoValueFoundForLeftArgumentWeak", 60074, 60075, [], []⟩,
  ⟨"CallstackFoundNoValue", "CallstackFoundNoValueWeak", 60078, 60079,
   ["std::string_view m_callstack_name"],
   ["std::string_view m_callstack_name"]⟩]

/-- A concrete source location used by witnesses. -/
def testLoc : LogLocationInfo := { path := "test.sqf", line := 3, col := 7 }

/-- The SQF value type enumeration `::sqf::type` comes from type.h, which is
not under src/; the spec describes these payload values only as "type
values", so they are modelled by their display names. -/
abbrev SqfType := String

/-- `ExpectedMinimumArraySizeMissmatch` (logging.h lines 706-718): payload `m_expected`, `m_got`; static level `error`, static code 60005. -/
structure ExpectedMinimumArraySizeMissmatch where
  base : RuntimeBase
  m_expected : Nat
  m_got : Nat
deriving DecidableEq, Repr

/-- `static const loglevel level` of `ExpectedMinimumArraySizeMissmatch` (line 707). -/
def ExpectedMinimumArraySizeMissmatch.level : loglevel := .error

/-- `static const size_t errorCode` of `ExpectedMinimumArraySizeMissmatch` (line 708). -/
def ExpectedMinimumArraySizeMissmatch.errorCode : Nat := 60005

/-- The `ExpectedMinimumArraySizeMissmatch` constructor (logging.h lines 706-718). -/
def ExpectedMinimumArraySizeMissmatch.ctor (loc : LogLocationInfo) (expected got : Nat) : ExpectedMinimumArraySizeMissmatch :=
  { base := RuntimeBase.ctor ExpectedMinimumArraySizeMissmatch.level ExpectedMinimumArraySizeMissmatch.errorCode loc,
    m_expected := expected, m_got := got }

/-- `ExpectedMinimumArraySizeMissmatchWeak` (logging.h lines 719-731): payload `m_expected`, `m_got`; static level `warning`, static code 60006. -/
structure ExpectedMinimumArraySizeMissmatchWeak where
  base : RuntimeBase
  m_expected : Nat
  m_got : Nat
deriving DecidableEq, Repr

/-- `static const loglevel level` of `ExpectedMinimumArraySizeMissmatchWeak` (line 720). -/
def ExpectedMinimumArraySizeMissmatchWeak.level : loglevel := .warning

/-- `static const size_t errorCode` of `ExpectedMinimumArraySizeMissmatchWeak` (line 721). -/
def ExpectedMinimumArraySizeMissmatchWeak.errorCode : Nat := 60006

/-- The `ExpectedMinimumArraySizeMissmatchWeak` constructor (logging.h lines 719-731). -/
def ExpectedMinimumArraySizeMissmatchWeak.ctor (loc : LogLocationInfo) (expected got : Nat) : ExpectedMinimumArraySizeMissmatchWeak :=
  { base := RuntimeBase.ctor ExpectedMinimumArraySizeMissmatchWeak.level ExpectedMinimumArraySizeMissmatchWeak.errorCode loc,
    m_expected := expected, m_got := got }

/-- Modelled from the spec: the shared wording template of the
`ExpectedMinimumArraySizeMissmatch`/`ExpectedMinimumArraySizeMissmatchWeak` pair (their `formatMessage`
bodies are not under src/); per spec sections 4.3, 8 and 9 the twins share
one wording template over the shared payload. -/
def minimumArraySizeWording (location : LogLocationInfo) (expected got : Nat) : String :=
  location.format ++ " expected array of at least size " ++ toString expected ++ ", got " ++ toString got

/-- Modelled from the spec: `ExpectedMinimumArraySizeMissmatch::formatMessage`, one
instantiation of the shared template. -/
def ExpectedMinimumArraySizeMissmatch.formatMessage (m : ExpectedMinimumArraySizeMissmatch) : String :=
  minimumArraySizeWording m.base.location m.m_expected m.m_got

/-- Modelled from the spec: `ExpectedMinimumArraySizeMissmatchWeak::formatMessage`, the other
instantiation of the shared template. -/
def ExpectedMinimumArraySizeMissmatchWeak.formatMessage (m : ExpectedMinimumArraySizeMissmatchWeak) : String :=
  minimumArraySizeWording m.base.location m.m_expected m.m_got

/-- `ExpectedArrayTypeMissmatch` (logging.h lines 732-753): payload `m_position`, `m_expected`, `m_got`; static level `error`, static code 60007. -/
structure ExpectedArrayTypeMissmatch where
  base : RuntimeBase
  m_position : Nat
  m_expected : List SqfType
  m_got : SqfType
deriving DecidableEq, Repr

/-- `static const loglevel level` of `ExpectedArrayTypeMissmatch` (line 733). -/
def ExpectedArrayTypeMissmatch.level : loglevel := .error

/-- `static const size_t errorCode` of `ExpectedArrayTypeMissmatch` (line 734). -/
def ExpectedArrayTypeMissmatch.errorCode : Nat := 60007

/-- The `ExpectedArrayTypeMissmatch` constructor (logging.h lines 732-753). -/
def ExpectedArrayTypeMissmatch.ctor (loc : LogLocationInfo) (position : Nat) (expected : List SqfType) (got : SqfType) : ExpectedArrayTypeMissmatch :=
  { base := RuntimeBase.ctor ExpectedArrayTypeMissmatch.level ExpectedArrayTypeMissmatch.errorCode loc,
    m_position := position, m_expected := expected, m_got := got }

/-- `ExpectedArrayTypeMissmatchWeak` (logging.h lines 754-775): payload `m_position`, `m_expected`, `m_got`; static level `warning`, static code 60008. -/
structure ExpectedArrayTypeMissmatchWeak where
  base : RuntimeBase
  m_position : Nat
  m_expected : List SqfType
  m_got : SqfType
deriving DecidableEq, Repr

/-- `static const loglevel level` of `ExpectedArrayTypeMissmatchWeak` (line 755). -/
def ExpectedArrayTypeMissmatchWeak.level : loglevel := .warning

/-- `static const size_t errorCode` of `ExpectedArrayTypeMissmatchWeak` (line 756). -/
def ExpectedArrayTypeMissmatchWeak.errorCode : Nat := 60008

/-- The `ExpectedArrayTypeMissmatchWeak` constructor (logging.h lines 754-775). -/
def ExpectedArrayTypeMissmatchWeak.ctor (loc : LogLocationInfo) (position : Nat) (expected : List SqfType) (got : SqfType) : ExpectedArrayTypeMissmatchWeak :=
  { base := RuntimeBase.ctor ExpectedArrayTypeMissmatchWeak.level ExpectedArrayTypeMissmatchWeak.errorCode loc,
    m_position := position, m_expected := expected, m_got := got }

/-- Modelled from the spec: the shared wording template of the
`ExpectedArrayTypeMissmatch`/`ExpectedArrayTypeMissmatchWeak` pair (their `formatMessage`
bodies are not under src/); per spec sections 4.3, 8 and 9 the twins share
one wording template over the shared payload. -/
def arrayTypeWording (location : LogLocationInfo) (position : Nat) (expected : List SqfType) (got : SqfType) : String :=
  location.format ++ " expected array element at position " ++ toString position ++ " to be of type " ++ String.intercalate " or " expected ++ ", got " ++ got

/-- Modelled from the spec: `ExpectedArrayTypeMissmatch::formatMessage`, one
instantiation of the shared template. -/
def ExpectedArrayTypeMissmatch.formatMessage (m : ExpectedArrayTypeMissmatch) : String :=
  arrayTypeWording m.base.location m.m_position m.m_expected m.m_got

/-- Modelled from the spec: `ExpectedArrayTypeMissmatchWeak::formatMessage`, the other
instantiation of the shared template. -/
def ExpectedArrayTypeMissmatchWeak.formatMessage (m : ExpectedArrayTypeMissmatchWeak) : String :=
  arrayTypeWording m.base.location m.m_position m.m_expected m.m_got

/-- `IndexOutOfRange` (logging.h lines 776-788): payload `m_range`, `m_index`; static level `error`, static code 60009. -/
structure IndexOutOfRange where
  base : RuntimeBase
  m_range : Nat
  m_index : Nat
deriving DecidableEq, Repr

/-- `static const loglevel level` of `IndexOutOfRange` (line 777). -/
def IndexOutOfRange.level : loglevel := .error

/-- `static const size_t errorCode` of `IndexOutOfRange` (line 778). -/
def IndexOutOfRange.errorCode : Nat := 60009

/-- The `IndexOutOfRange` constructor (logging.h lines 776-788). -/
def IndexOutOfRange.ctor (loc : LogLocationInfo) (range index : Nat) : IndexOutOfRange :=
  { base := RuntimeBase.ctor IndexOutOfRange.level IndexOutOfRange.errorCode loc,
    m_range := range, m_index := index }

/-- `IndexOutOfRangeWeak` (logging.h lines 789-801): payload `m_range`, `m_index`; static level `warning`, static code 60010. -/
structure IndexOutOfRangeWeak where
  base : RuntimeBase
  m_range : Nat
  m_index : Nat
deriving DecidableEq, Repr

/-- `static const loglevel level` of `IndexOutOfRangeWeak` (line 790). -/
def IndexOutOfRangeWeak.level : loglevel := .warning

/-- `static const size_t errorCode` of `IndexOutOfRangeWeak` (line 791). -/
def IndexOutOfRangeWeak.errorCode : Nat := 60010

/-- The `IndexOutOfRangeWeak` constructor (logging.h lines 789-801). -/
def IndexOutOfRangeWeak.ctor (loc : LogLocationInfo) (range index : Nat) : IndexOutOfRangeWeak :=
  { base := RuntimeBase.ctor IndexOutOfRangeWeak.level IndexOutOfRangeWeak.errorCode loc,
    m_range := range, m_index := index }

/-- Modelled from the spec: the shared wording template of the
`IndexOutOfRange`/`IndexOutOfRangeWeak` pair (their `formatMessage`
bodies are not under src/); per spec sections 4.3, 8 and 9 the twins share
one wording template over the shared payload. -/
def indexOutOfRangeWording (location : LogLocationInfo) (range index : Nat) : String :=
  location.format ++ " index " ++ toString index ++ " is out of range " ++ toString range

/-- Modelled from the spec: `IndexOutOfRange::formatMessage`, one
instantiation of the shared template. -/
def IndexOutOfRange.formatMessage (m : IndexOutOfRange) : String :=
  indexOutOfRangeWording m.base.location m.m_range m.m_index

/-- Modelled from the spec: `IndexOutOfRangeWeak::formatMessage`, the other
instantiation of the shared template. -/
def IndexOutOfRangeWeak.formatMessage (m : IndexOutOfRangeWeak) : String :=
  indexOutOfRangeWording m.base.location m.m_range m.m_index

/-- `static const loglevel level` of `NegativeIndex` (line 804). -/
def NegativeIndex.level : loglevel := .error

/-- `static const size_t errorCode` of `NegativeIndex` (line 805). -/
def NegativeIndex.errorCode : Nat := 60011

/-- The `NegativeIndex` constructor (logging.h lines 803-811): no payload of
its own, passes the static constants and the location up to `RuntimeBase`. -/
def NegativeIndex.ctor (loc : LogLocationInfo) : RuntimeBase :=
  RuntimeBase.ctor NegativeIndex.level NegativeIndex.errorCode loc

/-- `static const loglevel level` of `NegativeIndexWeak` (line 813). -/
def NegativeIndexWeak.level : loglevel := .warning

/-- `static const size_t errorCode` of `NegativeIndexWeak` (line 814). -/
def NegativeIndexWeak.errorCode : Nat := 60012

/-- The `NegativeIndexWeak` constructor (logging.h lines 812-820): no payload of
its own, passes the static constants and the location up to `RuntimeBase`. -/
def NegativeIndexWeak.ctor (loc : LogLocationInfo) : RuntimeBase :=
  RuntimeBase.ctor NegativeIndexWeak.level NegativeIndexWeak.errorCode loc

/-- Modelled from the spec: the shared wording template of the
`NegativeIndex`/`NegativeIndexWeak` pair (their `formatMessage`
bodies are not under src/); per spec sections 4.3, 8 and 9 the twins share
one wording template over the shared payload. -/
def negativeIndexWording (location : LogLocationInfo) : String :=
  location.format ++ " a negative index was provided"

/-- Modelled from the spec: `NegativeIndex::formatMessage`, one
instantiation of the shared template. -/
def NegativeIndex.formatMessage (m : RuntimeBase) : String :=
  negativeIndexWording m.location

/-- Modelled from the spec: `NegativeIndexWeak::formatMessage`, the other
instantiation of the shared template. -/
def NegativeIndexWeak.formatMessage (m : RuntimeBase) : String :=
  negativeIndexWording m.location

/-- `static const loglevel level` of `NegativeSize` (line 853). -/
def NegativeSize.level : loglevel := .error

/-- `static const size_t errorCode` of `NegativeSize` (line 854). -/
def NegativeSize.errorCode : Nat := 60016

/-- The `NegativeSize` constructor (logging.h lines 852-860): no payload of
its own, passes the static constants and the location up to `RuntimeBase`. -/
def NegativeSize.ctor (loc : LogLocationInfo) : RuntimeBase :=
  RuntimeBase.ctor NegativeSize.level NegativeSize.errorCode loc

/-- `static const loglevel level` of `NegativeSizeWeak` (line 862). -/
def NegativeSizeWeak.level : loglevel := .warning

/-- `static const size_t errorCode` of `NegativeSizeWeak` (line 863). -/
def NegativeSizeWeak.errorCode : Nat := 60017

/-- The `NegativeSizeWeak` constructor (logging.h lines 861-869): no payload of
its own, passes the static constants and the location up to `RuntimeBase`. -/
def NegativeSizeWeak.ctor (loc : LogLocationInfo) : RuntimeBase :=
  RuntimeBase.ctor NegativeSizeWeak.level NegativeSizeWeak.errorCode loc

/-- Modelled from the spec: the shared wording template of the
`NegativeSize`/`NegativeSizeWeak` pair (their `formatMessage`
bodies are not under src/); per spec sections 4.3, 8 and 9 the twins share
one wording template over the shared payload. -/
def negativeSizeWording (location : LogLocationInfo) : String :=
  location.format ++ " a negative size was provided"

/-- Modelled from the spec: `NegativeSize::formatMessage`, one
instantiation of the shared template. -/
def NegativeSize.formatMessage (m : RuntimeBase) : String :=
  negativeSizeWording m.location

/-- Modelled from the spec: `NegativeSizeWeak::formatMessage`, the other
instantiation of the shared template. -/
def NegativeSizeWeak.formatMessage (m : RuntimeBase) : String :=
  negativeSizeWording m.location

/-- `StartIndexExceedsToIndex` (logging.h lines 929-941): payload `m_from`, `m_to`; static level `error`, static code 60024. -/
structure StartIndexExceedsToIndex where
  base : RuntimeBase
  m_from : Nat
  m_to : Nat
deriving DecidableEq, Repr

/-- `static const loglevel level` of `StartIndexExceedsToIndex` (line 930). -/
def StartIndexExceedsToIndex.level : loglevel := .error

/-- `static const size_t errorCode` of `StartIndexExceedsToIndex` (line 931). -/
def StartIndexExceedsToIndex.errorCode : Nat := 60024

/-- The `StartIndexExceedsToIndex` constructor (logging.h lines 929-941). -/
def StartIndexExceedsToIndex.ctor (loc : LogLocationInfo) (fromIndex toIndex : Nat) : StartIndexExceedsToIndex :=
  { base := RuntimeBase.ctor StartIndexExceedsToIndex.level StartIndexExceedsToIndex.errorCode loc,
    m_from := fromIndex, m_to := toIndex }

/-- `StartIndexExceedsToIndexWeak` (logging.h lines 942-954): payload `m_from`, `m_to`; static level `warning`, static code 60025. -/
structure StartIndexExceedsToIndexWeak where
  base : RuntimeBase
  m_from : Nat
  m_to : Nat
deriving DecidableEq, Repr

/-- `static const loglevel level` of `StartIndexExceedsToIndexWeak` (line 943). -/
def StartIndexExceedsToIndexWeak.level : loglevel := .warning

/-- `static const size_t errorCode` of `StartIndexExceedsToIndexWeak` (line 944). -/
def StartIndexExceedsToIndexWeak.errorCode : Nat := 60025

/-- The `StartIndexExceedsToIndexWeak` constructor (logging.h lines 942-954). -/
def StartIndexExceedsToIndexWeak.ctor (loc : LogLocationInfo) (fromIndex toIndex : Nat) : StartIndexExceedsToIndexWeak :=
  { base := RuntimeBase.ctor StartIndexExceedsToIndexWeak.level StartIndexExceedsToIndexWeak.errorCode loc,
    m_from := fromIndex, m_to := toIndex }

/-- Modelled from the spec: the shared wording template of the
`StartIndexExceedsToIndex`/`StartIndexExceedsToIndexWeak` pair (their `formatMessage`
bodies are not under src/); per spec sections 4.3, 8 and 9 the twins share
one wording template over the shared payload. -/
def startIndexExceedsWording (location : LogLocationInfo) (fromIndex toIndex : Nat) : String :=
  location.format ++ " start index " ++ toString fromIndex ++ " exceeds to index " ++ toString toIndex

/-- Modelled from the spec: `StartIndexExceedsToIndex::formatMessage`, one
instantiation of the shared template. -/
def StartIndexExceedsToIndex.formatMessage (m : StartIndexExceedsToIndex) : String :=
  startIndexExceedsWording m.base.location m.m_from m.m_to

/-- Modelled from the spec: `StartIndexExceedsToIndexWeak::formatMessage`, the other
instantiation of the shared template. -/
def StartIndexExceedsToIndexWeak.formatMessage (m : StartIndexExceedsToIndexWeak) : String :=
  startIndexExceedsWording m.base.location m.m_from m.m_to

/-- `ExpectedSubArrayTypeMissmatch` (logging.h lines 1118-1140): payload `m_position`, `m_expected`, `m_got`; static level `error`, static code 60041. -/
structure ExpectedSubArrayTypeMissmatch where
  base : RuntimeBase
  m_position : List Nat
  m_expected : List SqfType
  m_got : SqfType
deriving DecidableEq, Repr

/-- `static const loglevel level` of `ExpectedSubArrayTypeMissmatch` (line 1119). -/
def ExpectedSubArrayTypeMissmatch.level : loglevel := .error

/-- `static const size_t errorCode` of `ExpectedSubArrayTypeMissmatch` (line 1120). -/
def ExpectedSubArrayTypeMissmatch.errorCode : Nat := 60041

/-- The `ExpectedSubArrayTypeMissmatch` constructor (logging.h lines 1118-1140). -/
def ExpectedSubArrayTypeMissmatch.ctor (loc : LogLocationInfo) (position : List Nat) (expected : List SqfType) (got : SqfType) : ExpectedSubArrayTypeMissmatch :=
  { base := RuntimeBase.ctor ExpectedSubArrayTypeMissmatch.level ExpectedSubArrayTypeMissmatch.errorCode loc,
    m_position := position, m_expected := expected, m_got := got }

/-- `ExpectedSubArrayTypeMissmatchWeak` (logging.h lines 1141-1163): payload `m_position`, `m_expected`, `m_got`; static level `warning`, static code 60042. -/
structure ExpectedSubArrayTypeMissmatchWeak where
  base : RuntimeBase
  m_position : List Nat
  m_expected : List SqfType
  m_got : SqfType
deriving DecidableEq, Repr

/-- `static const loglevel level` of `ExpectedSubArrayTypeMissmatchWeak` (line 1142). -/
def ExpectedSubArrayTypeMissmatchWeak.level : loglevel := .warning

/-- `static const size_t errorCode` of `ExpectedSubArrayTypeMissmatchWeak` (line 1143). -/
def ExpectedSubArrayTypeMissmatchWeak.errorCode : Nat := 60042

/-- The `ExpectedSubArrayTypeMissmatchWeak` constructor (logging.h lines 1141-1163). -/
def ExpectedSubArrayTypeMissmatchWeak.ctor (loc : LogLocationInfo) (position : List Nat) (expected : List SqfType) (got : SqfType) : ExpectedSubArrayTypeMissmatchWeak :=
  { base := RuntimeBase.ctor ExpectedSubArrayTypeMissmatchWeak.level ExpectedSubArrayTypeMissmatchWeak.errorCode loc,
    m_position := position, m_expected := expected, m_got := got }

/-- Modelled from the spec: the shared wording template of the
`ExpectedSubArrayTypeMissmatch`/`ExpectedSubArrayTypeMissmatchWeak` pair (their `formatMessage`
bodies are not under src/); per spec sections 4.3, 8 and 9 the twins share
one wording template over the shared payload. -/
def subArrayTypeWording (location : LogLocationInfo) (position : List Nat) (expected : List SqfType) (got : SqfType) : String :=
  location.format ++ " expected sub-array element at position " ++ String.intercalate "." (position.map toString) ++ " to be of type " ++ String.intercalate " or " expected ++ ", got " ++ got

/-- Modelled from the spec: `ExpectedSubArrayTypeMissmatch::formatMessage`, one
instantiation of the shared template. -/
def ExpectedSubArrayTypeMissmatch.formatMessage (m : ExpectedSubArrayTypeMissmatch) : String :=
  subArrayTypeWording m.base.location m.m_position m.m_expected m.m_got

/-- Modelled from the spec: `ExpectedSubArrayTypeMissmatchWeak::formatMessage`, the other
instantiation of the shared template. -/
def ExpectedSubArrayTypeMissmatchWeak.formatMessage (m : ExpectedSubArrayTypeMissmatchWeak) : String :=
  subArrayTypeWording m.base.location m.m_position m.m_expected m.m_got

/-- `static const loglevel level` of `ExpectedArrayToHaveElements` (line 1225). -/
def ExpectedArrayToHaveElements.level : loglevel := .error

/-- `static const size_t errorCode` of `ExpectedArrayToHaveElements` (line 1226). -/
def ExpectedArrayToHaveElements.errorCode : Nat := 60049

/-- The `ExpectedArrayToHaveElements` constructor (logging.h lines 1224-1232): no payload of
its own, passes the static constants and the location up to `RuntimeBase`. -/
def ExpectedArrayToHaveElements.ctor (loc : LogLocationInfo) : RuntimeBase :=
  RuntimeBase.ctor ExpectedArrayToHaveElements.level ExpectedArrayToHaveElements.errorCode loc

/-- `static const loglevel level` of `ExpectedArrayToHaveElementsWeak` (line 1234). -/
def ExpectedArrayToHaveElementsWeak.level : loglevel := .warning

/-- `static const size_t errorCode` of `ExpectedArrayToHaveElementsWeak` (line 1235). -/
def ExpectedArrayToHaveElementsWeak.errorCode : Nat := 60050

/-- The `ExpectedArrayToHaveElementsWeak` constructor (logging.h lines 1233-1241): no payload of
its own, passes the static constants and the location up to `RuntimeBase`. -/
def ExpectedArrayToHaveElementsWeak.ctor (loc : LogLocationInfo) : RuntimeBase :=
  RuntimeBase.ctor ExpectedArrayToHaveElementsWeak.level ExpectedArrayToHaveElementsWeak.errorCode loc

/-- Modelled from the spec: the shared wording template of the
`ExpectedArrayToHaveElements`/`ExpectedArrayToHaveElementsWeak` pair (their `formatMessage`
bodies are not under src/); per spec sections 4.3, 8 and 9 the twins share
one wording template over the shared payload. -/
def arrayToHaveElementsWording (location : LogLocationInfo) : String :=
  location.format ++ " expected the array to have elements"

/-- Modelled from the spec: `ExpectedArrayToHaveElements::formatMessage`, one
instantiation of the shared template. -/
def ExpectedArrayToHaveElements.formatMessage (m : RuntimeBase) : String :=
  arrayToHaveElementsWording m.location

/-- Modelled from the spec: `ExpectedArrayToHaveElementsWeak::formatMessage`, the other
instantiation of the shared template. -/
def ExpectedArrayToHaveElementsWeak.formatMessage (m : RuntimeBase) : String :=
  arrayToHaveElementsWording m.location

/-- `static const loglevel level` of `ExpectedNonNullValue` (line 1315). -/
def ExpectedNonNullValue.level : loglevel := .error

/-- `static const size_t errorCode` of `ExpectedNonNullValue` (line 1316). -/
def ExpectedNonNullValue.errorCode : Nat := 60058

/-- The `ExpectedNonNullValue` constructor (logging.h lines 1314-1322): no payload of
its own, passes the static constants and the location up to `RuntimeBase`. -/
def ExpectedNonNullValue.ctor (loc : LogLocationInfo) : RuntimeBase :=
  RuntimeBase.ctor ExpectedNonNullValue.level ExpectedNonNullValue.errorCode loc

/-- `static const loglevel level` of `ExpectedNonNullValueWeak` (line 1324). -/
def ExpectedNonNullValueWeak.level : loglevel := .warning

/-- `static const size_t errorCode` of `ExpectedNonNullValueWeak` (line 1325). -/
def ExpectedNonNullValueWeak.errorCode : Nat := 60059

/-- The `ExpectedNonNullValueWeak` constructor (logging.h lines 1323-1331): no payload of
its own, passes the static constants and the location up to `RuntimeBase`. -/
def ExpectedNonNullValueWeak.ctor (loc : LogLocationInfo) : RuntimeBase :=
  RuntimeBase.ctor ExpectedNonNullValueWeak.level ExpectedNonNullValueWeak.errorCode loc

/-- Modelled from the spec: the shared wording template of the
`ExpectedNonNullValue`/`ExpectedNonNullValueWeak` pair (their `formatMessage`
bodies are not under src/); per spec sections 4.3, 8 and 9 the twins share
one wording template over the shared payload. -/
def nonNullValueWording (location : LogLocationInfo) : String :=
  location.format ++ " expected a non-null value"

/-- Modelled from the spec: `ExpectedNonNullValue::formatMessage`, one
instantiation of the shared template. -/
def ExpectedNonNullValue.formatMessage (m : RuntimeBase) : String :=
  nonNullValueWording m.location

/-- Modelled from the spec: `ExpectedNonNullValueWeak::formatMessage`, the other
instantiation of the shared template. -/
def ExpectedNonNullValueWeak.formatMessage (m : RuntimeBase) : String :=
  nonNullValueWording m.location

/-- `ConfigEntryNotFound` (logging.h lines 1332-1349): payload `m_config_path`, `m_config_name`; static level `error`, static code 60060. -/
structure ConfigEntryNotFound where
  base : RuntimeBase
  m_config_path : List String
  m_config_name : String
deriving DecidableEq, Repr

/-- `static const loglevel level` of `ConfigEntryNotFound` (line 1333). -/
def ConfigEntryNotFound.level : loglevel := .error

/-- `static const size_t errorCode` of `ConfigEntryNotFound` (line 1334). -/
def ConfigEntryNotFound.errorCode : Nat := 60060

/-- The `ConfigEntryNotFound` constructor (logging.h lines 1332-1349). -/
def ConfigEntryNotFound.ctor (loc : LogLocationInfo) (config_path : List String) (config_name : String) : ConfigEntryNotFound :=
  { base := RuntimeBase.ctor ConfigEntryNotFound.level ConfigEntryNotFound.errorCode loc,
    m_config_path := config_path, m_config_name := config_name }

/-- `ConfigEntryNotFoundWeak` (logging.h lines 1350-1366): payload `m_config_path`, `m_config_name`; static level `warning`, static code 60061. -/
structure ConfigEntryNotFoundWeak where
  base : RuntimeBase
  m_config_path : List String
  m_config_name : String
deriving DecidableEq, Repr

/-- `static const loglevel level` of `ConfigEntryNotFoundWeak` (line 1351). -/
def ConfigEntryNotFoundWeak.level : loglevel := .warning

/-- `static const size_t errorCode` of `ConfigEntryNotFoundWeak` (line 1352). -/
def ConfigEntryNotFoundWeak.errorCode : Nat := 60061

/-- The `ConfigEntryNotFoundWeak` constructor (logging.h lines 1350-1366). -/
def ConfigEntryNotFoundWeak.ctor (loc : LogLocationInfo) (config_path : List String) (config_name : String) : ConfigEntryNotFoundWeak :=
  { base := RuntimeBase.ctor ConfigEntryNotFoundWeak.level ConfigEntryNotFoundWeak.errorCode loc,
    m_config_path := config_path, m_config_name := config_name }

/-- Modelled from the spec: the shared wording template of the
`ConfigEntryNotFound`/`ConfigEntryNotFoundWeak` pair (their `formatMessage`
bodies are not under src/); per spec sections 4.3, 8 and 9 the twins share
one wording template over the shared payload. -/
def configEntryNotFoundWording (location : LogLocationInfo) (config_path : List String) (config_name : String) : String :=
  location.format ++ " config entry " ++ config_name ++ " was not found in " ++ String.intercalate "/" config_path

/-- Modelled from the spec: `ConfigEntryNotFound::formatMessage`, one
instantiation of the shared template. -/
def ConfigEntryNotFound.formatMessage (m : ConfigEntryNotFound) : String :=
  configEntryNotFoundWording m.base.location m.m_config_path m.m_config_name

/-- Modelled from the spec: `ConfigEntryNotFoundWeak::formatMessage`, the other
instantiation of the shared template. -/
def ConfigEntryNotFoundWeak.formatMessage (m : ConfigEntryNotFoundWeak) : String :=
  configEntryNotFoundWording m.base.location m.m_config_path m.m_config_name

/-- `static const loglevel level` of `ExpectedVehicle` (line 1368). -/
def ExpectedVehicle.level : loglevel := .error

/-- `static const size_t errorCode` of `ExpectedVehicle` (line 1369). -/
def ExpectedVehicle.errorCode : Nat := 60062

/-- The `ExpectedVehicle` constructor (logging.h lines 1367-1375): no payload of
its own, passes the static constants and the location up to `RuntimeBase`. -/
def ExpectedVehicle.ctor (loc : LogLocationInfo) : RuntimeBase :=
  RuntimeBase.ctor ExpectedVehicle.level ExpectedVehicle.errorCode loc

/-- `static const loglevel level` of `ExpectedVehicleWeak` (line 1377). -/
def ExpectedVehicleWeak.level : loglevel := .warning

/-- `static const size_t errorCode` of `ExpectedVehicleWeak` (line 1378). -/
def ExpectedVehicleWeak.errorCode : Nat := 60063

/-- The `ExpectedVehicleWeak` constructor (logging.h lines 1376-1384): no payload of
its own, passes the static constants and the location up to `RuntimeBase`. -/
def ExpectedVehicleWeak.ctor (loc : LogLocationInfo) : RuntimeBase :=
  RuntimeBase.ctor ExpectedVehicleWeak.level ExpectedVehicleWeak.errorCode loc

/-- Modelled from the spec: the shared wording template of the
`ExpectedVehicle`/`ExpectedVehicleWeak` pair (their `formatMessage`
bodies are not under src/); per spec sections 4.3, 8 and 9 the twins share
one wording template over the shared payload. -/
def expectedVehicleWording (location : LogLocationInfo) : String :=
  location.format ++ " expected a vehicle"

/-- Modelled from the spec: `ExpectedVehicle::formatMessage`, one
instantiation of the shared template. -/
def ExpectedVehicle.formatMessage (m : RuntimeBase) : String :=
  expectedVehicleWording m.location

/-- Modelled from the spec: `ExpectedVehicleWeak::formatMessage`, the other
instantiation of the shared template. -/
def ExpectedVehicleWeak.formatMessage (m : RuntimeBase) : String :=
  expectedVehicleWording m.location

/-- `static const loglevel level` of `ExpectedUnit` (line 1386). -/
def ExpectedUnit.level : loglevel := .error

/-- `static const size_t errorCode` of `ExpectedUnit` (line 1387). -/
def ExpectedUnit.errorCode : Nat := 60064

/-- The `ExpectedUnit` constructor (logging.h lines 1385-1393): no payload of
its own, passes the static constants and the location up to `RuntimeBase`. -/
def ExpectedUnit.ctor (loc : LogLocationInfo) : RuntimeBase :=
  RuntimeBase.ctor ExpectedUnit.level ExpectedUnit.errorCode loc

/-- `static const loglevel level` of `ExpectedUnitWeak` (line 1395). -/
def ExpectedUnitWeak.level : loglevel := .warning

/-- `static const size_t errorCode` of `ExpectedUnitWeak` (line 1396). -/
def ExpectedUnitWeak.errorCode : Nat := 60065

/-- The `ExpectedUnitWeak` constructor (logging.h lines 1394-1402): no payload of
its own, passes the static constants and the location up to `RuntimeBase`. -/
def ExpectedUnitWeak.ctor (loc : LogLocationInfo) : RuntimeBase :=
  RuntimeBase.ctor ExpectedUnitWeak.level ExpectedUnitWeak.errorCode loc

/-- Modelled from the spec: the shared wording template of the
`ExpectedUnit`/`ExpectedUnitWeak` pair (their `formatMessage`
bodies are not under src/); per spec sections 4.3, 8 and 9 the twins share
one wording template over the shared payload. -/
def expectedUnitWording (location : LogLocationInfo) : String :=
  location.format ++ " expected a unit"

/-- Modelled from the spec: `ExpectedUnit::formatMessage`, one
instantiation of the shared template. -/
def ExpectedUnit.formatMessage (m : RuntimeBase) : String :=
  expectedUnitWording m.location

/-- Modelled from the spec: `ExpectedUnitWeak::formatMessage`, the other
instantiation of the shared template. -/
def ExpectedUnitWeak.formatMessage (m : RuntimeBase) : String :=
  expectedUnitWording m.location

/-- `TypeMissmatch` (logging.h lines 1434-1446): payload `m_expected`, `m_got`; static level `error`, static code 60068. -/
structure TypeMissmatch where
  base : RuntimeBase
  m_expected : SqfType
  m_got : SqfType
deriving DecidableEq, Repr

/-- `static const loglevel level` of `TypeMissmatch` (line 1435). -/
def TypeMissmatch.level : loglevel := .error

/-- `static const size_t errorCode` of `TypeMissmatch` (line 1436). -/
def TypeMissmatch.errorCode : Nat := 60068

/-- The `TypeMissmatch` constructor (logging.h lines 1434-1446). -/
def TypeMissmatch.ctor (loc : LogLocationInfo) (expected got : SqfType) : TypeMissmatch :=
  { base := RuntimeBase.ctor TypeMissmatch.level TypeMissmatch.errorCode loc,
    m_expected := expected, m_got := got }

/-- `TypeMissmatchWeak` (logging.h lines 1447-1459): payload `m_expected`, `m_got`; static level `warning`, static code 60069. -/
structure TypeMissmatchWeak where
  base : RuntimeBase
  m_expected : SqfType
  m_got : SqfType
deriving DecidableEq, Repr

/-- `static const loglevel level` of `TypeMissmatchWeak` (line 1448). -/
def TypeMissmatchWeak.level : loglevel := .warning

/-- `static const size_t errorCode` of `TypeMissmatchWeak` (line 1449). -/
def TypeMissmatchWeak.errorCode : Nat := 60069

/-- The `TypeMissmatchWeak` constructor (logging.h lines 1447-1459). -/
def TypeMissmatchWeak.ctor (loc : LogLocationInfo) (expected got : SqfType) : TypeMissmatchWeak :=
  { base := RuntimeBase.ctor TypeMissmatchWeak.level TypeMissmatchWeak.errorCode loc,
    m_expected := expected, m_got := got }

/-- Modelled from the spec: the shared wording template of the
`TypeMissmatch`/`TypeMissmatchWeak` pair (their `formatMessage`
bodies are not under src/); per spec sections 4.3, 8 and 9 the twins share
one wording template over the shared payload. -/
def typeMissmatchWording (location : LogLocationInfo) (expected got : SqfType) : String :=
  location.format ++ " expected type " ++ expected ++ ", got " ++ got

/-- Modelled from the spec: `TypeMissmatch::formatMessage`, one
instantiation of the shared template. -/
def TypeMissmatch.formatMessage (m : TypeMissmatch) : String :=
  typeMissmatchWording m.base.location m.m_expected m.m_got

/-- Modelled from the spec: `TypeMissmatchWeak::formatMessage`, the other
instantiation of the shared template. -/
def TypeMissmatchWeak.formatMessage (m : TypeMissmatchWeak) : String :=
  typeMissmatchWording m.base.location m.m_expected m.m_got

/-- `static const loglevel level` of `NoValueFoundForRightArgument` (line 1486). -/
def NoValueFoundForRightArgument.level : loglevel := .error

/-- `static const size_t errorCode` of `NoValueFoundForRightArgument` (line 1487). -/
def NoValueFoundForRightArgument.errorCode : Nat := 60072

/-- The `NoValueFoundForRightArgument` constructor (logging.h lines 1485-1493): no payload of
its own, passes the static constants and the location up to `RuntimeBase`. -/
def NoValueFoundForRightArgument.ctor (loc : LogLocationInfo) : RuntimeBase :=
  RuntimeBase.ctor NoValueFoundForRightArgument.level NoValueFoundForRightArgument.errorCode loc

/-- `static const loglevel level` of `NoValueFoundForRightArgumentWeak` (line 1495). -/
def NoValueFoundForRightArgumentWeak.level : loglevel := .warning

/-- `static const size_t errorCode` of `NoValueFoundForRightArgumentWeak` (line 1496). -/
def NoValueFoundForRightArgumentWeak.errorCode : Nat := 60073

/-- The `NoValueFoundForRightArgumentWeak` constructor (logging.h lines 1494-1502): no payload of
its own, passes the static constants and the location up to `RuntimeBase`. -/
def NoValueFoundForRightArgumentWeak.ctor (loc : LogLocationInfo) : RuntimeBase :=
  RuntimeBase.ctor NoValueFoundForRightArgumentWeak.level NoValueFoundForRightArgumentWeak.errorCode loc

/-- Modelled from the spec: the shared wording template of the
`NoValueFoundForRightArgument`/`NoValueFoundForRightArgumentWeak` pair (their `formatMessage`
bodies are not under src/); per spec sections 4.3, 8 and 9 the twins share
one wording template over the shared payload. -/
def rightArgumentWording (location : LogLocationInfo) : String :=
  location.format ++ " no value was found for the right argument"

/-- Modelled from the spec: `NoValueFoundForRightArgument::formatMessage`, one
instantiation of the shared template. -/
def NoValueFoundForRightArgument.formatMessage (m : RuntimeBase) : String :=
  rightArgumentWording m.location

/-- Modelled from the spec: `NoValueFoundForRightArgumentWeak::formatMessage`, the other
instantiation of the shared template. -/
def NoValueFoundForRightArgumentWeak.formatMessage (m : RuntimeBase) : String :=
  rightArgumentWording m.location

/-- `static const loglevel level` of `NoValueFoundForLeftArgument` (line 1504). -/
def NoValueFoundForLeftArgument.level : loglevel := .error

/-- `static const size_t errorCode` of `NoValueFoundForLeftArgument` (line 1505). -/
def NoValueFoundForLeftArgument.errorCode : Nat := 60074

/-- The `NoValueFoundForLeftArgument` constructor (logging.h lines 1503-1511): no payload of
its own, passes the static constants and the location up to `RuntimeBase`. -/
def NoValueFoundForLeftArgument.ctor (loc : LogLocationInfo) : RuntimeBase :=
  RuntimeBase.ctor NoValueFoundForLeftArgument.level NoValueFoundForLeftArgument.errorCode loc

/-- `static const loglevel level` of `NoValueFoundForLeftArgumentWeak` (line 1513). -/
def NoValueFoundForLeftArgumentWeak.level : loglevel := .warning

/-- `static const size_t errorCode` of `NoValueFoundForLeftArgumentWeak` (line 1514). -/
def NoValueFoundForLeftArgumentWeak.errorCode : Nat := 60075

/-- The `NoValueFoundForLeftArgumentWeak` constructor (logging.h lines 1512-1520): no payload of
its own, passes the static constants and the location up to `RuntimeBase`. -/
def NoValueFoundForLeftArgumentWeak.ctor (loc : LogLocationInfo) : RuntimeBase :=
  RuntimeBase.ctor NoValueFoundForLeftArgumentWeak.level NoValueFoundForLeftArgumentWeak.errorCode loc

/-- Modelled from the spec: the shared wording template of the
`NoValueFoundForLeftArgument`/`NoValueFoundForLeftArgumentWeak` pair (their `formatMessage`
bodies are not under src/); per spec sections 4.3, 8 and 9 the twins share
one wording template over the shared payload. -/
def leftArgumentWording (location : LogLocationInfo) : String :=
  location.format ++ " no value was found for the left argument"

/-- Modelled from the spec: `NoValueFoundForLeftArgument::formatMessage`, one
instantiation of the shared template. -/
def NoValueFoundForLeftArgument.formatMessage (m : RuntimeBase) : String :=
  leftArgumentWording m.location

/-- Modelled from the spec: `NoValueFoundForLeftArgumentWeak::formatMessage`, the other
instantiation of the shared template. -/
def NoValueFoundForLeftArgumentWeak.formatMessage (m : RuntimeBase) : String :=
  leftArgumentWording m.location

/-- `CallstackFoundNoValue` (logging.h lines 1551-1561): payload `m_callstack_name`; static level `error`, static code 60078. -/
structure CallstackFoundNoValue where
  base : RuntimeBase
  m_callstack_name : String
deriving DecidableEq, Repr

/-- `static const loglevel level` of `CallstackFoundNoValue` (line 1552). -/
def CallstackFoundNoValue.level : loglevel := .error

/-- `static const size_t errorCode` of `CallstackFoundNoValue` (line 1553). -/
def CallstackFoundNoValue.errorCode : Nat := 60078

/-- The `CallstackFoundNoValue` constructor (logging.h lines 1551-1561). -/
def CallstackFoundNoValue.ctor (loc : LogLocationInfo) (callstack_name : String) : CallstackFoundNoValue :=
  { base := RuntimeBase.ctor CallstackFoundNoValue.level CallstackFoundNoValue.errorCode loc,
    m_callstack_name := callstack_name }

/-- `CallstackFoundNoValueWeak` (logging.h lines 1562-1572): payload `m_callstack_name`; static level `warning`, static code 60079. -/
structure CallstackFoundNoValueWeak where
  base : RuntimeBase
  m_callstack_name : String
deriving DecidableEq, Repr

/-- `static const loglevel level` of `CallstackFoundNoValueWeak` (line 1563). -/
def CallstackFoundNoValueWeak.level : loglevel := .warning

/-- `static const size_t errorCode` of `CallstackFoundNoValueWeak` (line 1564). -/
def CallstackFoundNoValueWeak.errorCode : Nat := 60079

/-- The `CallstackFoundNoValueWeak` constructor (logging.h lines 1562-1572). -/
def CallstackFoundNoValueWeak.ctor (loc : LogLocationInfo) (callstack_name : String) : CallstackFoundNoValueWeak :=
  { base := RuntimeBase.ctor CallstackFoundNoValueWeak.level CallstackFoundNoValueWeak.errorCode loc,
    m_callstack_name := callstack_name }

/-- Modelled from the spec: the shared wording template of the
`CallstackFoundNoValue`/`CallstackFoundNoValueWeak` pair (their `formatMessage`
bodies are not under src/); per spec sections 4.3, 8 and 9 the twins share
one wording template over the shared payload. -/
def callstackNoValueWording (location : LogLocationInfo) (callstack_name : String) : String :=
  location.format ++ " callstack " ++ callstack_name ++ " found no value"

/-- Modelled from the spec: `CallstackFoundNoValue::formatMessage`, one
instantiation of the shared template. -/
def CallstackFoundNoValue.formatMessage (m : CallstackFoundNoValue) : String :=
  callstackNoValueWording m.base.location m.m_callstack_name

/-- Modelled from the spec: `CallstackFoundNoValueWeak::formatMessage`, the other
instantiation of the shared template. -/
def CallstackFoundNoValueWeak.formatMessage (m : CallstackFoundNoValueWeak) : String :=
  callstackNoValueWording m.base.location m.m_callstack_name

/-- C1: the claim that no two catalog kinds ever share a numeric code fails
on the code: `MarkerAlreadyExisting` and `InvalidMarkershape` both carry
errorCode 60067, and this is the only collision — every other code occurs
exactly once.  The modelled construction chains of the two kinds yield the
same `getErrorCode` for every payload. -/
theorem duplicate_code_60067 :
    (catalog.filter (fun e => e.code == 60067)).map CatalogEntry.name =
      ["MarkerAlreadyExisting", "InvalidMarkershape"] ∧
    ((catalog.map CatalogEntry.code).filter (fun c => c != 60067)).Nodup ∧
    (catalog.map CatalogEntry.code).count 60067 = 2 ∧
    (∀ loc marker shape,
      (MarkerAlreadyExisting.ctor loc marker).base.base.getErrorCode =
      (InvalidMarkershape.ctor loc shape).base.base.getErrorCode) := by
  refine ⟨by decide, by decide, by decide, fun _ _ _ => rfl⟩

/-- C2: emitting through `CanLog::log` with a closed gate for the message's
severity produces no sink write and does not invoke the message's render;
with an open gate it invokes render exactly once and forwards
(severity, rendered text) to the sink. -/
theorem canLog_gate_spec (lg : Logger) (m : EmitMessage) :
    (lg.isEnabled m.level = false →
      (CanLog.log lg m).1.output = lg.output ∧ (CanLog.log lg m).2 = 0) ∧
    (lg.isEnabled m.level = true →
      (CanLog.log lg m).2 = 1 ∧
      (CanLog.log lg m).1.output = lg.output ++ [(m.level, m.rendered)]) := by
  constructor
  · intro h
    simp [CanLog.log, h]
  · intro h
    simp [CanLog.log, h, Logger.log]

/-- C2 witness: with the warning gate closed, emitting a warning message
writes nothing and renders zero times; on the fresh logger, emitting an
error message renders once and its (severity, text) reaches the sink. -/
theorem canLog_gate_spec_witness :
    ((CanLog.log (Logger.init.setEnabled .warning false) ⟨.warning, 60070, "w"⟩).1.output = [] ∧
      (CanLog.log (Logger.init.setEnabled .warning false) ⟨.warning, 60070, "w"⟩).2 = 0) ∧
    ((CanLog.log Logger.init ⟨.error, 60043, "e"⟩).2 = 1 ∧
      (CanLog.log Logger.init ⟨.error, 60043, "e"⟩).1.output = [] ++ [(.error, "e")]) :=
  ⟨(canLog_gate_spec (Logger.init.setEnabled .warning false) ⟨.warning, 60070, "w"⟩).1 rfl,
   (canLog_gate_spec Logger.init ⟨.error, 60043, "e"⟩).2 rfl⟩

/-- C3: the sink primitive `Logger::log` appends (level, text) to the
observable output for every logger state — in particular for states whose
gate for that level is closed — and returns the gates untouched; the
appended entry is the same for every gate configuration, so the sink never
consults `isEnabled`. -/
theorem logger_log_unconditional (lg : Logger) (level : loglevel) (msg : String) :
    (Logger.log lg level msg).output = lg.output ++ [(level, msg)] ∧
    (Logger.log lg level msg).enabledWarningLevels = lg.enabledWarningLevels ∧
    (∀ gates : loglevel → Bool,
      (Logger.log { enabledWarningLevels := gates, output := lg.output } level msg).output =
      (Logger.log lg level msg).output) :=
  ⟨rfl, rfl, fun _ => rfl⟩

/-- C4: after `setEnabled(l, b)` the gate for `l` reads `b`, the gate for
any other level `l2` is unchanged, and neither the sink primitive nor the
emit operation changes any gate. -/
theorem setEnabled_isEnabled_frame (lg : Logger) (l l2 : loglevel) (b : Bool)
    (h : l2 ≠ l) :
    (lg.setEnabled l b).isEnabled l = b ∧
    (lg.setEnabled l b).isEnabled l2 = lg.isEnabled l2 ∧
    (∀ lvl msg lq, (Logger.log lg lvl msg).isEnabled lq = lg.isEnabled lq) ∧
    (∀ m : EmitMessage, ∀ lq, ((CanLog.log lg m).1).isEnabled lq = lg.isEnabled lq) := by
  refine ⟨?_, ?_, fun _ _ _ => rfl, ?_⟩
  · simp [Logger.setEnabled, Logger.isEnabled]
  · simp [Logger.setEnabled, Logger.isEnabled, h]
  · intro m lq
    by_cases hc : lg.enabledWarningLevels m.level = true
    · simp [CanLog.log, Logger.isEnabled, Logger.log, hc]
    · simp [CanLog.log, Logger.isEnabled, hc]

/-- C4 witness: on the fresh logger, disabling `warning` makes the warning
gate read false, leaves the error gate as it was, and sink/emit leave every
gate alone. -/
theorem setEnabled_isEnabled_frame_witness :
    (Logger.init.setEnabled .warning false).isEnabled .warning = false ∧
    (Logger.init.setEnabled .warning false).isEnabled .error = Logger.init.isEnabled .error ∧
    (∀ lvl msg lq, (Logger.log Logger.init lvl msg).isEnabled lq = Logger.init.isEnabled lq) ∧
    (∀ m : EmitMessage, ∀ lq, ((CanLog.log Logger.init m).1).isEnabled lq = Logger.init.isEnabled lq) :=
  setEnabled_isEnabled_frame Logger.init .warning .error false (by decide)

/-- C5: every Strong/Weak sibling pair declares identical payload members;
the strong side is catalogued at level error, the weak side at level
warning, and their codes differ (the weak code is the strong code plus
one); and for each of the seventeen pairs the two renderers — both
instantiations of the pair's shared wording template — produce identical
text from identical payload. -/
theorem strong_weak_twins_spec :
    (∀ p ∈ twins,
      p.strongFields = p.weakFields ∧
      (⟨p.strongName, .runtime, .error, p.strongCode⟩ : CatalogEntry) ∈ catalog ∧
      (⟨p.weakName, .runtime, .warning, p.weakCode⟩ : CatalogEntry) ∈ catalog ∧
      p.weakCode = p.strongCode + 1) ∧
    (∀ loc expected_min expected_max got,
      (ExpectedArraySizeMissmatch.ctor4 loc expected_min expected_max got).formatMessage =
      (ExpectedArraySizeMissmatchWeak.ctor4 loc expected_min expected_max got).formatMessage) ∧
    (∀ loc expected got,
      (ExpectedMinimumArraySizeMissmatch.ctor loc expected got).formatMessage =
      (ExpectedMinimumArraySizeMissmatchWeak.ctor loc expected got).formatMessage) ∧
    (∀ loc position expected got,
      (ExpectedArrayTypeMissmatch.ctor loc position expected got).formatMessage =
      (ExpectedArrayTypeMissmatchWeak.ctor loc position expected got).formatMessage) ∧
    (∀ loc range index,
      (IndexOutOfRange.ctor loc range index).formatMessage =
      (IndexOutOfRangeWeak.ctor loc range index).formatMessage) ∧
    (∀ loc,
      NegativeIndex.formatMessage (NegativeIndex.ctor loc) =
      NegativeIndexWeak.formatMessage (NegativeIndexWeak.ctor loc)) ∧
    (∀ loc,
      NegativeSize.formatMessage (NegativeSize.ctor loc) =
      NegativeSizeWeak.formatMessage (NegativeSizeWeak.ctor loc)) ∧
    (∀ loc fromIndex toIndex,
      (StartIndexExceedsToIndex.ctor loc fromIndex toIndex).formatMessage =
      (StartIndexExceedsToIndexWeak.ctor loc fromIndex toIndex).formatMessage) ∧
    (∀ loc position expected got,
      (ExpectedSubArrayTypeMissmatch.ctor loc position expected got).formatMessage =
      (ExpectedSubArrayTypeMissmatchWeak.ctor loc position expected got).formatMessage) ∧
    (∀ loc,
      ExpectedArrayToHaveElements.formatMessage (ExpectedArrayToHaveElements.ctor loc) =
      ExpectedArrayToHaveElementsWeak.formatMessage (ExpectedArrayToHaveElementsWeak.ctor loc)) ∧
    (∀ loc,
      ExpectedNonNullValue.formatMessage (ExpectedNonNullValue.ctor loc) =
      ExpectedNonNullValueWeak.formatMessage (ExpectedNonNullValueWeak.ctor loc)) ∧
    (∀ loc config_path config_name,
      (ConfigEntryNotFound.ctor loc config_path config_name).formatMessage =
      (ConfigEntryNotFoundWeak.ctor loc config_path config_name).formatMessage) ∧
    (∀ loc,
      ExpectedVehicle.formatMessage (ExpectedVehicle.ctor loc) =
      ExpectedVehicleWeak.formatMessage (ExpectedVehicleWeak.ctor loc)) ∧
    (∀ loc,
      ExpectedUnit.formatMessage (ExpectedUnit.ctor loc) =
      ExpectedUnitWeak.formatMessage (ExpectedUnitWeak.ctor loc)) ∧
    (∀ loc expected got,
      (TypeMissmatch.ctor loc expected got).formatMessage =
      (TypeMissmatchWeak.ctor loc expected got).formatMessage) ∧
    (∀ loc,
      NoValueFoundForRightArgument.formatMessage (NoValueFoundForRightArgument.ctor loc) =
      NoValueFoundForRightArgumentWeak.formatMessage (NoValueFoundForRightArgumentWeak.ctor loc)) ∧
    (∀ loc,
      NoValueFoundForLeftArgument.formatMessage (NoValueFoundForLeftArgument.ctor loc) =
      NoValueFoundForLeftArgumentWeak.formatMessage (NoValueFoundForLeftArgumentWeak.ctor loc)) ∧
    (∀ loc callstack_name,
      (CallstackFoundNoValue.ctor loc callstack_name).formatMessage =
      (CallstackFoundNoValueWeak.ctor loc callstack_name).formatMessage) := by
  refine ⟨by decide, fun _ _ _ _ => rfl, fun _ _ _ => rfl, fun _ _ _ _ => rfl,
    fun _ _ _ => rfl, fun _ => rfl, fun _ => rfl, fun _ _ _ => rfl,
    fun _ _ _ _ => rfl, fun _ => rfl, fun _ => rfl, fun _ _ _ => rfl,
    fun _ => rfl, fun _ => rfl, fun _ _ _ => rfl, fun _ => rfl, fun _ => rfl,
    fun _ _ => rfl⟩

/-- C5 witness: the array-size pair has identical payload members, sits in
the catalog at error/warning with codes 60003/60004, and both its sides
render the same text for expected=2, got=5 at a concrete location. -/
theorem strong_weak_twins_spec_witness :
    (twinArraySize.strongFields = twinArraySize.weakFields ∧
      (⟨twinArraySize.strongName, .runtime, .error, twinArraySize.strongCode⟩ : CatalogEntry) ∈ catalog ∧
      (⟨twinArraySize.weakName, .runtime, .warning, twinArraySize.weakCode⟩ : CatalogEntry) ∈ catalog ∧
      twinArraySize.weakCode = twinArraySize.strongCode + 1) ∧
    (ExpectedArraySizeMissmatch.ctor4 testLoc 2 2 5).formatMessage =
      (ExpectedArraySizeMissmatchWeak.ctor4 testLoc 2 2 5).formatMessage :=
  ⟨strong_weak_twins_spec.1 twinArraySize (by decide),
   strong_weak_twins_spec.2.1 testLoc 2 2 5⟩

/-- C6: a freshly constructed Logger has every one of the six severity
gates open before any `setEnabled` call. -/
theorem init_gates_all_open : ∀ l : loglevel, Logger.init.isEnabled l = true :=
  fun _ => rfl

/-- C7: `getLevel` and `getErrorCode` return exactly the constants handed
to the `LogMessageBase` constructor, and each modelled catalog kind hands
over its definition-time static constants for every payload — so a
message's severity and code are never caller-supplied or
payload-dependent. -/
theorem kind_constants_fixed :
    (∀ lvl code, (LogMessageBase.mk lvl code).getLevel = lvl ∧
      (LogMessageBase.mk lvl code).getErrorCode = code) ∧
    (∀ loc, (ArgCountMissmatch.ctor loc).base.getLevel = ArgCountMissmatch.level ∧
      (ArgCountMissmatch.ctor loc).base.getErrorCode = ArgCountMissmatch.errorCode) ∧
    (∀ loc expected_min expected_max got,
      (ExpectedArraySizeMissmatch.ctor4 loc expected_min expected_max got).base.base.getLevel = .error ∧
      (ExpectedArraySizeMissmatch.ctor4 loc expected_min expected_max got).base.base.getErrorCode = 60003) ∧
    (∀ loc marker, (MarkerAlreadyExisting.ctor loc marker).base.base.getLevel = .warning ∧
      (MarkerAlreadyExisting.ctor loc marker).base.base.getErrorCode = 60067) ∧
    (∀ loc shape, (InvalidMarkershape.ctor loc shape).base.base.getLevel = .warning ∧
      (InvalidMarkershape.ctor loc shape).base.base.getErrorCode = 60067) :=
  ⟨fun _ _ => ⟨rfl, rfl⟩, fun _ => ⟨rfl, rfl⟩, fun _ _ _ _ => ⟨rfl, rfl⟩,
   fun _ _ => ⟨rfl, rfl⟩, fun _ _ => ⟨rfl, rfl⟩⟩

/-- C8: every catalog kind's code lies in its owning domain's thousands
band (preprocessor 10xxx, assembly 20xxx, script parser 30xxx, config
parser 40xxx, linting 50xxx, runtime 60xxx) and within 10001..60082. -/
theorem codes_in_domain_ranges :
    ∀ e ∈ catalog, e.code / 1000 = e.domain.codeBand ∧ 10001 ≤ e.code ∧ e.code ≤ 60082 := by
  decide

/-- C8 witness: the first catalog kind, `ArgCountMissmatch`, has code 10001
in the preprocessor band and within the allocated range. -/
theorem codes_in_domain_ranges_witness :
    (⟨"ArgCountMissmatch", .preprocessor, .error, 10001⟩ : CatalogEntry).code / 1000 =
      (⟨"ArgCountMissmatch", .preprocessor, .error, 10001⟩ : CatalogEntry).domain.codeBand ∧
    10001 ≤ (⟨"ArgCountMissmatch", .preprocessor, .error, 10001⟩ : CatalogEntry).code ∧
    (⟨"ArgCountMissmatch", .preprocessor, .error, 10001⟩ : CatalogEntry).code ≤ 60082 :=
  codes_in_domain_ranges ⟨"ArgCountMissmatch", .preprocessor, .error, 10001⟩ (by decide)

/-- C9: a default-constructed `LogLocationInfo` always has empty path,
while its line and column are not determined by the construction — they
take whatever junk the uninitialized memory holds, so reading them is
unsafe and such a value is built from none of the four source shapes. -/
theorem default_location_info :
    (∀ u v, (LogLocationInfo.mkDefault u v).path = "") ∧
    (∃ u v u' v', (LogLocationInfo.mkDefault u v).line ≠ (LogLocationInfo.mkDefault u' v').line) ∧
    (∃ u v u' v', (LogLocationInfo.mkDefault u v).col ≠ (LogLocationInfo.mkDefault u' v').col) :=
  ⟨fun _ _ => rfl, ⟨0, 0, 1, 0, by decide⟩, ⟨0, 0, 0, 1, by decide⟩⟩

/-- C10: `loglevelstring` maps the six enumerators to six pairwise distinct
five-character bracketed tags and every other underlying value to "[???]"
instead of failing. -/
theorem loglevelstring_total :
    Logger.loglevelstring loglevel.fatal.toIdx = "[FAT]" ∧
    Logger.loglevelstring loglevel.error.toIdx = "[ERR]" ∧
    Logger.loglevelstring loglevel.warning.toIdx = "[WRN]" ∧
    Logger.loglevelstring loglevel.info.toIdx = "[INF]" ∧
    Logger.loglevelstring loglevel.verbose.toIdx = "[VBS]" ∧
    Logger.loglevelstring loglevel.trace.toIdx = "[TRC]" ∧
    (["[FAT]", "[ERR]", "[WRN]", "[INF]", "[VBS]", "[TRC]"] : List String).Nodup ∧
    (∀ tag ∈ (["[FAT]", "[ERR]", "[WRN]", "[INF]", "[VBS]", "[TRC]"] : List String), tag.length = 5) ∧
    (∀ n : Int, n ∉ ([0, 1, 2, 3, 4, 5] : List Int) → Logger.loglevelstring n = "[???]") := by
  refine ⟨rfl, rfl, rfl, rfl, rfl, rfl, by decide, by decide, ?_⟩
  intro n hn
  simp only [List.mem_cons, List.not_mem_nil, or_false, not_or] at hn
  obtain ⟨h0, h1, h2, h3, h4, h5⟩ := hn
  simp only [Logger.loglevelstring, loglevel.toIdx]
  rw [if_neg h0, if_neg h1, if_neg h2, if_neg h3, if_neg h4, if_neg h5]

/-- C10 witness: the underlying value 42 is none of the six enumerators and
maps to "[???]". -/
theorem loglevelstring_total_witness :
    (42 : Int) ∉ ([0, 1, 2, 3, 4, 5] : List Int) ∧ Logger.loglevelstring 42 = "[???]" :=
  ⟨by decide, loglevelstring_total.2.2.2.2.2.2.2.2 42 (by decide)⟩

end SqfLog
